import Mathlib

/-!
Verification of the felis-discord-bot message-deletion handler.

This file is a shallow embedding of `src/bot/__init__.py`:

* `Deletion`, `_repo` — the static per-server deletion-rule table.
* `DeletionRepo.get_all` — the repository accessor (an `IOSuccess` of `_repo`).
* `_validate_if_message_type_is_reply`, `_validate_if_message_is_from_deletions`
  — the two classification helpers (values in `Option`, mirroring
  `returns.maybe.Maybe`).
* `_delete_message_and_send_alert` — the actuator; it returns the list of
  external-client calls it issues together with an optional escaped Python
  exception (the bare `next(l)` on an exhausted filter raises `StopIteration`
  before `message.delete()` is awaited).
* `delete_reply` — the full handler pipeline: repository read, classification,
  `maybe_to_result`, and the actuation step, producing a `HandlerResult`
  (success / `Failure(None)` / escaped exception) and the trace of calls
  issued to the external chat client.

Python-semantics details carried over faithfully:

* `returns.io.IO` is modelled by `IoBox`; the container defines neither
  `__bool__` nor `__len__`, so `if io_value:` is always truthy
  (`IoBox.truthy`).  Consequently `_validate_if_message_is_from_deletions`
  returns a match for every message, whatever its computed filter says.
* `next(it)` without a default raises `StopIteration` on an empty iterator
  (`pyNext`), while `next(it, None)` is total (`pyNextOrNone`).
* `maybe_to_result` maps `Nothing` to `Failure(None)`.
-/

namespace FelisBot

/-- Models the Python `None` singleton (`NoneType`). -/
inductive PyNone where
  | none
deriving DecidableEq, Repr

/-- Python exceptions the embedded code can raise. -/
inductive PyErr where
  | stopIteration
deriving DecidableEq, Repr

/-- Models a `returns.io.IO` container: an eager box around one value
(`IO.map` applies its function immediately). -/
structure IoBox (α : Type) where
  run : α

/-- `IO.map` of the returns library: eager application inside the box. -/
def IoBox.map {α β : Type} (x : IoBox α) (f : α → β) : IoBox β :=
  ⟨f x.run⟩

/-- Python truthiness of a `returns.io.IO` object: the class defines neither
`__bool__` nor `__len__`, so `bool(io_value)` is always `True`, regardless of
the wrapped value. -/
def IoBox.truthy {α : Type} (_ : IoBox α) : Bool :=
  true

/-- Python `next(it)` with no default, on the iterator of a list: the first
element, or a raised `StopIteration` when the iterator is exhausted. -/
def pyNext {α : Type} (l : List α) : Except PyErr α :=
  match l.head? with
  | some a => Except.ok a
  | Option.none => Except.error PyErr.stopIteration

/-- Python `next(it, None)` on the iterator of a list: total, yielding the
first element or `None`. -/
def pyNextOrNone {α : Type} (l : List α) : Option α :=
  l.head?

/-- `returns.converters.maybe_to_result`: `Some v ↦ Success v`,
`Nothing ↦ Failure(None)`. -/
def maybe_to_result {α : Type} (m : Option α) : Except PyNone α :=
  match m with
  | some v => Except.ok v
  | Option.none => Except.error PyNone.none

/-- `IOResult.value_or`: unwrap a success, or fall back to the default. -/
def value_or {ε α : Type} (r : Except ε α) (deflt : α) : α :=
  match r with
  | Except.ok v => v
  | Except.error _ => deflt

/-- `discord.MessageType`, abridged to representative constructors: the
handler only discriminates `reply` against every other constructor. -/
inductive MessageType where
  | default
  | recipient_add
  | pins_add
  | reply
  | thread_created
deriving DecidableEq, Repr

/-- The read-only fields of a `discord.Message` the bot uses.  `guild_id`
embeds `message.guild.id`; `channel_id` identifies `message.channel` as the
target of `channel.send`. -/
structure Message where
  id : Nat
  type : MessageType
  guild_id : Nat
  channel_id : Nat
  author_name : String
  channel_name : String
  content : String
deriving DecidableEq, Repr

/-- One per-server deletion rule (`@dataclass(frozen=True) class Deletion`). -/
structure Deletion where
  server_id : Nat
  template_message : Option String
deriving DecidableEq, Repr

/-- The static module-level rule table `_repo`, verbatim from the source. -/
def _repo : List Deletion :=
  [{ server_id := 669234451263389696,
     template_message :=
       some "저희 서버에서 답장 기능은 금지되어 있어요! <#687619273849438228> 정독 부탁드려요!" },
   { server_id := 910708305247211520, template_message := some "야호" }]

/-- The `_DbConnection` protocol: a record with a `session` string. -/
structure DbConnection where
  session : String
deriving DecidableEq, Repr

/-- A call issued to the external chat client: `message.delete()` on a given
message, or `channel.send(payload)` to a given channel.  The payload is the
`template_message` value passed to `send` (an `Option String`, as the field
is `str | None`). -/
inductive Call where
  | delete (messageId : Nat)
  | send (channelId : Nat) (payload : Option String)
deriving DecidableEq, Repr

/-- `DeletionRepo.get_all`: reads the module-level `_repo` and wraps it in
`IOSuccess` (modelled as `Except.ok`); the connection is only logged. -/
def DeletionRepo.get_all (_conn : DbConnection) : Except PyNone (List Deletion) :=
  Except.ok _repo

/-- `_validate_if_message_type_is_reply`: `Some message` when the message
type is `reply`, `Nothing` otherwise (the log line is a no-op here). -/
def _validate_if_message_type_is_reply (message : Message) : Option Message :=
  match message.type with
  | MessageType.reply => some message
  | _ => Option.none

/-- `_validate_if_message_is_from_deletions`: filters the boxed rule list by
the message's guild id and takes `next(·, None)`, but then tests the *IO
container* for truthiness (`if result:`), which is always `True`. -/
def _validate_if_message_is_from_deletions (deletions : IoBox (List Deletion))
    (message : Message) : Option Message :=
  let result : IoBox (Option Deletion) :=
    (deletions.map fun c => c.filter fun x => x.server_id == message.guild_id).map
      fun filtered_deletions => pyNextOrNone filtered_deletions
  if result.truthy then some message else Option.none

/-- `_delete_message_and_send_alert`: first evaluates
`deletions.map(filter).map(lambda l: next(l))` — a bare `next`, raising
`StopIteration` when no rule matches, *before* `message.delete()` is awaited —
then deletes the message and sends the matched rule's `template_message` to
the message's channel.  Returns the trace of issued calls and the escaped
exception, if any. -/
def _delete_message_and_send_alert (deletions : IoBox (List Deletion))
    (message : Message) : List Call × Option PyErr :=
  let filtered : IoBox (List Deletion) :=
    deletions.map fun l => l.filter fun x => x.server_id == message.guild_id
  match pyNext filtered.run with
  | Except.error e => ([], some e)
  | Except.ok deletion =>
      ([Call.delete message.id, Call.send message.channel_id deletion.template_message],
        Option.none)

/-- Outcome of one `delete_reply` invocation, as seen by the dispatcher:
the `FutureResult` success branch, the `Failure(None)` branch produced by
`maybe_to_result` on a non-match, or an exception that escaped the pipeline. -/
inductive HandlerResult where
  | success
  | failure (payload : PyNone)
  | raised (e : PyErr)
deriving DecidableEq, Repr

/-- The `delete_reply` handler: reads the rule table
(`DeletionRepo.get_all(...)(dep).value_or([])`), classifies the message
(`_validate_if_message_type_is_reply(...).bind(_validate_if_message_is_from_deletions(...))`),
converts the `Maybe` with `maybe_to_result`, and on success runs the actuator.
Returns the handler outcome and the trace of calls issued to the client. -/
def delete_reply (message : Message) (dep : DbConnection) :
    HandlerResult × List Call :=
  let deletions : IoBox (List Deletion) :=
    ⟨value_or (DeletionRepo.get_all dep) []⟩
  let m : Option Message :=
    (_validate_if_message_type_is_reply message).bind
      (_validate_if_message_is_from_deletions deletions)
  match maybe_to_result m with
  | Except.error e => (HandlerResult.failure e, [])
  | Except.ok msg =>
      match _delete_message_and_send_alert deletions msg with
      | (calls, Option.none) => (HandlerResult.success, calls)
      | (calls, some err) => (HandlerResult.raised err, calls)

/-- `true` on `Call.send` entries of a trace. -/
def Call.isSend : Call → Bool
  | Call.send _ _ => true
  | Call.delete _ => false

/-- `true` on `Call.delete` entries of a trace. -/
def Call.isDelete : Call → Bool
  | Call.delete _ => true
  | Call.send _ _ => false

/-- Every send in the trace is preceded by some delete: no send call is
issued before a delete call has been issued. -/
def noSendBeforeDelete (trace : List Call) : Prop :=
  ∀ i : Fin trace.length, (trace.get i).isSend = true →
    ∃ j : Fin trace.length, (j : Nat) < (i : Nat) ∧ (trace.get j).isDelete = true

/-! ### Shared evaluation lemmas -/

/-- A non-reply message fails the type check: the first classifier returns
`Nothing`. -/
theorem validate_type_eq_none {msg : Message} (h : msg.type ≠ MessageType.reply) :
    _validate_if_message_type_is_reply msg = Option.none := by
  unfold _validate_if_message_type_is_reply
  cases hm : msg.type <;> simp_all

/-- When the message is not a reply, the handler short-circuits at
`maybe_to_result Nothing = Failure(None)` with an empty call trace. -/
theorem delete_reply_of_not_reply (msg : Message) (dep : DbConnection)
    (h : msg.type ≠ MessageType.reply) :
    delete_reply msg dep = (HandlerResult.failure PyNone.none, []) := by
  unfold delete_reply
  simp [validate_type_eq_none h, maybe_to_result]

/-- When the message is a reply and some rule's `server_id` equals its guild
id (with `d` the first such rule), the handler deletes the message and then
sends that rule's template to the message's channel, succeeding. -/
theorem delete_reply_of_match (msg : Message) (dep : DbConnection) (d : Deletion)
    (h1 : msg.type = MessageType.reply)
    (h2 : (_repo.filter fun x => x.server_id == msg.guild_id).head? = some d) :
    delete_reply msg dep =
      (HandlerResult.success,
        [Call.delete msg.id, Call.send msg.channel_id d.template_message]) := by
  unfold delete_reply _validate_if_message_type_is_reply
    _validate_if_message_is_from_deletions _delete_message_and_send_alert
  rw [h1]
  simp [DeletionRepo.get_all, value_or, IoBox.map, IoBox.truthy, maybe_to_result,
    pyNext, h2]

/-- When the message is a reply but no rule's `server_id` equals its guild id,
the truthiness bug still classifies it as a match, and the actuator's bare
`next` raises `StopIteration` before any call is issued. -/
theorem delete_reply_of_nomatch (msg : Message) (dep : DbConnection)
    (h1 : msg.type = MessageType.reply)
    (h2 : (_repo.filter fun x => x.server_id == msg.guild_id) = []) :
    delete_reply msg dep = (HandlerResult.raised PyErr.stopIteration, []) := by
  unfold delete_reply _validate_if_message_type_is_reply
    _validate_if_message_is_from_deletions _delete_message_and_send_alert
  rw [h1]
  simp [DeletionRepo.get_all, value_or, IoBox.map, IoBox.truthy, maybe_to_result,
    pyNext, h2]

/-- The head of a filtered list is a member of the original list. -/
theorem mem_of_filter_head {p : Deletion → Bool} {l : List Deletion} {d : Deletion}
    (h : (l.filter p).head? = some d) : d ∈ l := by
  have hmem : d ∈ l.filter p := by
    cases hf : l.filter p with
    | nil => rw [hf] at h; cases h
    | cons a t =>
      rw [hf] at h
      injection h with h
      rw [← h]
      exact List.mem_cons_self a t
  exact (List.mem_filter.mp hmem).1

/-- Every rule in the static table carries a non-empty template. -/
theorem repo_template_nonempty {d : Deletion} (hd : d ∈ _repo) :
    ∃ s, d.template_message = some s ∧ s ≠ "" := by
  simp only [_repo, List.mem_cons, List.not_mem_nil, or_false] at hd
  rcases hd with h | h <;> subst h <;> exact ⟨_, rfl, by decide⟩

/-! ### Concrete messages used by witnesses and evaluations -/

/-- Spec Scenario 3: a reply from server 1, which has no configured rule. -/
def msg_srv1_reply : Message :=
  { id := 100, type := MessageType.reply, guild_id := 1, channel_id := 7,
    author_name := "alice", channel_name := "general", content := "hi" }

/-- Spec Scenario 1: a reply from the first configured server. -/
def msg_srv669_reply : Message :=
  { id := 200, type := MessageType.reply, guild_id := 669234451263389696,
    channel_id := 8, author_name := "bob", channel_name := "lounge",
    content := "hello" }

/-- Spec Scenario 2: a reply from the second configured server. -/
def msg_srv910_reply : Message :=
  { id := 300, type := MessageType.reply, guild_id := 910708305247211520,
    channel_id := 9, author_name := "carol", channel_name := "talk",
    content := "yo" }

/-- Spec Scenario 4: a non-reply message from a configured server. -/
def msg_srv669_default : Message :=
  { id := 400, type := MessageType.default, guild_id := 669234451263389696,
    channel_id := 10, author_name := "dave", channel_name := "misc",
    content := "plain" }

/-- A non-reply message from an unconfigured server. -/
def msg_srv1_default : Message :=
  { id := 500, type := MessageType.pins_add, guild_id := 1, channel_id := 11,
    author_name := "erin", channel_name := "pins", content := "" }

/-- The `_DbConnection` value the dispatcher injects (`Test(session="test")`). -/
def testConn : DbConnection :=
  { session := "test" }

/-! ### Claims -/

/-- C1: a reply message whose guild id equals no rule's `server_id` in the
static table causes no delete call and no send call — the handler's trace of
external-client calls is empty (the actuator's bare `next` raises before
`message.delete()` is reached). -/
theorem c1_reply_unconfigured_no_calls (msg : Message) (dep : DbConnection)
    (h1 : msg.type = MessageType.reply)
    (h2 : ∀ d ∈ _repo, d.server_id ≠ msg.guild_id) :
    (delete_reply msg dep).2 = [] := by
  have hfil : (_repo.filter fun x => x.server_id == msg.guild_id) = [] := by
    rw [List.filter_eq_nil_iff]
    intro a ha
    simp [h2 a ha]
  rw [delete_reply_of_nomatch msg dep h1 hfil]

/-- Witness for C1 at Scenario 3: a reply from server 1. -/
theorem c1_witness : (delete_reply msg_srv1_reply testConn).2 = [] :=
  c1_reply_unconfigured_no_calls msg_srv1_reply testConn rfl (by decide)

/-- C2 evaluation: the classification stage at Scenario 3 (a reply from the
unconfigured server 1) returns `Some message`, not `Nothing`: the
`if result:` test of an `IO` container is always truthy, so the server-id
check never rejects. -/
theorem c2_classification_matches_unconfigured :
    (_validate_if_message_type_is_reply msg_srv1_reply).bind
      (_validate_if_message_is_from_deletions ⟨_repo⟩) = some msg_srv1_reply := by
  rfl

/-- C3: a reply whose guild id is configured (with `d` the matching rule) is
deleted exactly once and exactly one send is issued, to the message's
channel, with the payload being the rule's template verbatim; that template
is non-empty (so the "send iff the template is non-empty" biconditional
holds over the static table). -/
theorem c3_reply_configured_delete_and_send (msg : Message) (dep : DbConnection)
    (d : Deletion) (h1 : msg.type = MessageType.reply)
    (h2 : (_repo.filter fun x => x.server_id == msg.guild_id).head? = some d) :
    delete_reply msg dep =
      (HandlerResult.success,
        [Call.delete msg.id, Call.send msg.channel_id d.template_message]) ∧
    ∃ s, d.template_message = some s ∧ s ≠ "" :=
  ⟨delete_reply_of_match msg dep d h1 h2,
    repo_template_nonempty (mem_of_filter_head h2)⟩

/-- Witness for C3 at Scenario 1: a reply from server 669234451263389696. -/
theorem c3_witness :
    delete_reply msg_srv669_reply testConn =
      (HandlerResult.success,
        [Call.delete 200,
         Call.send 8
           (some "저희 서버에서 답장 기능은 금지되어 있어요! <#687619273849438228> 정독 부탁드려요!")]) ∧
    ∃ s,
      (some "저희 서버에서 답장 기능은 금지되어 있어요! <#687619273849438228> 정독 부탁드려요!" :
          Option String) = some s ∧ s ≠ "" :=
  c3_reply_configured_delete_and_send msg_srv669_reply testConn
    { server_id := 669234451263389696,
      template_message :=
        some "저희 서버에서 답장 기능은 금지되어 있어요! <#687619273849438228> 정독 부탁드려요!" }
    rfl (by decide)

/-- C4: a message whose type is not `reply` causes no delete call and no
send call, whatever its guild id: the trace is empty. -/
theorem c4_non_reply_no_calls (msg : Message) (dep : DbConnection)
    (h : msg.type ≠ MessageType.reply) :
    (delete_reply msg dep).2 = [] := by
  rw [delete_reply_of_not_reply msg dep h]

/-- Witness for C4 at Scenario 4: a non-reply from a configured server. -/
theorem c4_witness : (delete_reply msg_srv669_default testConn).2 = [] :=
  c4_non_reply_no_calls msg_srv669_default testConn (by decide)

/-- C5 evaluation: at Scenario 3 (a reply from the unconfigured server 1) the
handler does **not** complete normally: the classification stage wrongly
matches (truthiness bug) and the actuator's bare `next(l)` on the empty
filter raises `StopIteration`, which escapes the handler (no call issued). -/
theorem c5_handler_raises_on_unconfigured_reply :
    delete_reply msg_srv1_reply testConn =
      (HandlerResult.raised PyErr.stopIteration, []) := by
  rfl

/-- C6: for a qualifying message (a reply whose guild id is configured, `d`
the matching rule), every send call in the issued trace is preceded by a
delete call: the send never precedes the delete. -/
theorem c6_delete_precedes_send (msg : Message) (dep : DbConnection)
    (d : Deletion) (h1 : msg.type = MessageType.reply)
    (h2 : (_repo.filter fun x => x.server_id == msg.guild_id).head? = some d) :
    noSendBeforeDelete (delete_reply msg dep).2 := by
  rw [delete_reply_of_match msg dep d h1 h2]
  intro i hi
  refine ⟨⟨0, by simp⟩, ?_, by simp [Call.isDelete]⟩
  rcases i with ⟨iv, hiv⟩
  match iv, hiv with
  | 0, _ => simp [Call.isSend] at hi
  | 1, _ => simp

/-- Witness for C6 at Scenario 2: a reply from server 910708305247211520. -/
theorem c6_witness : noSendBeforeDelete (delete_reply msg_srv910_reply testConn).2 :=
  c6_delete_precedes_send msg_srv910_reply testConn
    { server_id := 910708305247211520, template_message := some "야호" }
    rfl (by decide)

/-- C7: the two classification helpers are total Lean functions (no source
operation in them can raise: the type check is a total match, the server-id
check uses `next(·, None)` and a truthiness test), and on every message and
every rule list their results are fully characterised: the type check yields
`Some` exactly on replies, and the server-id check always yields `Some`
(always a "match" — never an error value). -/
theorem c7_classifiers_total (msg : Message) (ds : List Deletion) :
    _validate_if_message_type_is_reply msg =
      (if msg.type = MessageType.reply then some msg else Option.none) ∧
    _validate_if_message_is_from_deletions ⟨ds⟩ msg = some msg := by
  constructor
  · unfold _validate_if_message_type_is_reply
    cases hm : msg.type <;> simp [hm]
  · rfl

/-- C8: the rule table is static and read-only.  The source contains no
statement writing `_repo`, so in the embedding it is a constant; every call
to `DeletionRepo.get_all` succeeds with that same constant, the list the
handler actually consults (`value_or(..., [])`) is that constant, and the
constant is the fixed two-entry table defined at startup. -/
theorem c8_rule_table_static :
    (∀ conn : DbConnection, DeletionRepo.get_all conn = Except.ok _repo) ∧
    (∀ dep : DbConnection, value_or (DeletionRepo.get_all dep) [] = _repo) ∧
    _repo =
      [{ server_id := 669234451263389696,
         template_message :=
           some "저희 서버에서 답장 기능은 금지되어 있어요! <#687619273849438228> 정독 부탁드려요!" },
       { server_id := 910708305247211520, template_message := some "야호" }] :=
  ⟨fun _ => rfl, fun _ => rfl, rfl⟩

/-- C10: when the message is not a reply, the handler's result value is the
failure branch of the result type carrying `None` — the image of `Nothing`
under `maybe_to_result` — and not a success value. -/
theorem c10_non_reply_failure_none (msg : Message) (dep : DbConnection)
    (h : msg.type ≠ MessageType.reply) :
    (delete_reply msg dep).1 = HandlerResult.failure PyNone.none := by
  rw [delete_reply_of_not_reply msg dep h]

/-- Witness for C10: a non-reply message from an unconfigured server. -/
theorem c10_witness :
    (delete_reply msg_srv1_default testConn).1 = HandlerResult.failure PyNone.none :=
  c10_non_reply_failure_none msg_srv1_default testConn (by decide)

end FelisBot
